import Mathlib

/-!
Shallow embedding of `webdriver_click_functions/selenium/click.py` and of the
collaborator operations its public click functions call.  Collaborators
(`get_element`, `element.screenshot`, `click_image`, `locate_image`,
`os.remove`, the confirmation predicate) are modelled by an environment that
says, for each call the body makes, whether it returns a value or raises an
exception; the embedded functions mirror the Python control flow of the
source line by line and additionally thread an observable trace (files left
on disk, number of confirmation-predicate calls, number of click-action
calls, the argument bundle forwarded to the click action).
-/

/-- Outcome of a Python call that either returns a value or raises an
exception (any subclass of `Exception`). -/
inductive Res (α : Type) where
  | ok (a : α) : Res α
  | exn : Res α
  deriving DecidableEq, Repr

/-- Behaviour of the collaborator calls made by one `save_element` invocation
(click.py lines 113-147): the named `element.screenshot` call and, when the
named call returns a falsy flag, the temporary-file branch. -/
structure SaveEnv where
  /-- Result of `element.screenshot(filepath)` for the named file: raises, or
  returns the `saved` flag.  The file is taken to exist exactly when the call
  returns `True`. -/
  screenshotOk : Res Bool
  /-- Name handed out by `tempfile.NamedTemporaryFile` (which itself creates
  the file, with `delete=False`). -/
  tempName : String
  /-- Result of `element.screenshot(temp_file_path)`. -/
  tempShotOk : Res Bool
  /-- Whether `os.path.exists(temp_file_path) and os.path.getsize(...)` holds
  afterwards (click.py line 143). -/
  tempSaved : Bool
  deriving DecidableEq, Repr

/-- The temporary-file branch of `save_element` (click.py lines 136-147):
`NamedTemporaryFile` creates the file unconditionally; the screenshot is
written into it; if the file is then missing or empty an `Exception` is
raised.  Returns the call result paired with the list of files created. -/
def saveTempBranch (e : SaveEnv) : Res String × List String :=
  match e.tempShotOk with
  | .exn => (.exn, [e.tempName])
  | .ok _ => if e.tempSaved then (.ok e.tempName, [e.tempName]) else (.exn, [e.tempName])

/-- `save_element` (click.py lines 113-147).  With a provided `name`, the
screenshot is written to `<name>.png`; if that `element.screenshot` call
returns a falsy flag the code falls through to the temporary-file branch. -/
def save_element (e : SaveEnv) (name : Option String) : Res String × List String :=
  match name with
  | some n =>
    (match e.screenshotOk with
     | .exn => (.exn, [])
     | .ok true => (.ok (n ++ ".png"), [n ++ ".png"])
     | .ok false => saveTempBranch e)
  | none => saveTempBranch e

/-- A located screen region, as returned by `locate_image` /
`pyautogui` (a box x, y, width, height). -/
abbrev Region := Int × Int × Int × Int

/-- Identity of the easing callable passed around by the orchestrator (it is
treated as opaque there). -/
inductive EasingRef where
  | linearFn : EasingRef
  | custom (id : Nat) : EasingRef
  deriving DecidableEq, Repr

/-- Identity of the confirmation callable (`Clicked.default` or a custom
predicate). -/
inductive ConfirmRef where
  | clickedDefault : ConfirmRef
  | custom (id : Nat) : ConfirmRef
  deriving DecidableEq, Repr

/-- The keyword options of `click_this_element` / `click_inside_this_element`
(click.py lines 150-161 and 196-207).  Python floats are modelled as
rationals. -/
structure ClickOptions where
  confidence : Rat
  retries : Nat
  x_reduction : Rat
  y_reduction : Rat
  duration_range : Rat × Rat
  steps_range : Nat × Nat
  /-- `perform_test`; `none` models passing `perform_test=None`. -/
  perform_test : Option ConfirmRef
  easing_func : EasingRef
  deriving DecidableEq, Repr

/-- Default option values of `click_this_element`, transcribed from its
signature (click.py lines 150-161). -/
def click_this_element_defaults : ClickOptions :=
  { confidence := 0.8
  , retries := 3
  , x_reduction := 0.2
  , y_reduction := 0.2
  , duration_range := (1, 3)
  , steps_range := (150, 300)
  , perform_test := some .clickedDefault
  , easing_func := .linearFn }

/-- Default option values of `click_inside_this_element`, transcribed from
its signature (click.py lines 196-207). -/
def click_inside_this_element_defaults : ClickOptions :=
  { confidence := 0.8
  , retries := 3
  , x_reduction := 0.2
  , y_reduction := 0.2
  , duration_range := (1, 3)
  , steps_range := (150, 300)
  , perform_test := some .clickedDefault
  , easing_func := .linearFn }

/-- The argument bundle handed to `click_image` (click.py lines 172-181 and
224-234): the forwarded options plus the optional search region. -/
structure ImageClickArgs where
  confidence : Rat
  retries : Nat
  x_reduction : Rat
  y_reduction : Rat
  duration_range : Rat × Rat
  steps_range : Nat × Nat
  easing_func : EasingRef
  region : Option Region
  deriving DecidableEq, Repr

/-- The bundle `click_this_element` / `click_inside_this_element` forwards to
`click_image` from an options record and a search region. -/
def imageArgsOf (o : ClickOptions) (r : Option Region) : ImageClickArgs :=
  { confidence := o.confidence
  , retries := o.retries
  , x_reduction := o.x_reduction
  , y_reduction := o.y_reduction
  , duration_range := o.duration_range
  , steps_range := o.steps_range
  , easing_func := o.easing_func
  , region := r }

/-- Observable outcome of one public click invocation: the boolean the
caller receives (the function never raises: its whole body is wrapped in
`try/except Exception`), the screenshot files still on disk on return, how
often the confirmation predicate was called, how often `click_image` was
called, and the argument bundle forwarded to `click_image` (if it was
reached). -/
structure Outcome where
  ret : Bool
  filesLeft : List String
  testCalls : Nat
  clickCalls : Nat
  forwarded : Option ImageClickArgs
  deriving DecidableEq, Repr

/-- Behaviour of the collaborator calls made by one `click_this_element`
invocation. -/
structure ClickEnv where
  /-- `get_element(driver, selector)`: returns the element or raises. -/
  getElement : Res Unit
  /-- Collaborators of the `save_element(element, 'element_1')` call. -/
  save1 : SaveEnv
  /-- `click_image(...)`: returns the success flag or raises. -/
  clickImage : Res Bool
  /-- `os.remove(file_path)`: raises iff removal failed (then the file is
  still present). -/
  remove1 : Res Unit
  /-- `perform_test(driver, element, **test_kwargs)` when `perform_test`
  is not `None`. -/
  performTest : Res Bool
  deriving DecidableEq, Repr

/-- `click_this_element` (click.py lines 150-193).  The `try` body resolves
the element, saves its screenshot, calls `click_image` with the forwarded
options, removes the screenshot file, and then either returns the click
success flag (`perform_test is None`) or returns the predicate value; any
exception is caught by the `except Exception` handler, logged, and turned
into `False`. -/
def click_this_element (env : ClickEnv) (opts : ClickOptions) : Outcome :=
  match env.getElement with
  | .exn => { ret := false, filesLeft := [], testCalls := 0, clickCalls := 0, forwarded := none }
  | .ok _ =>
    match save_element env.save1 (some "element_1") with
    | (.exn, created) =>
      { ret := false, filesLeft := created, testCalls := 0, clickCalls := 0, forwarded := none }
    | (.ok file_path, created) =>
      let args := imageArgsOf opts none
      match env.clickImage with
      | .exn =>
        { ret := false, filesLeft := created, testCalls := 0, clickCalls := 1, forwarded := some args }
      | .ok success =>
        match env.remove1 with
        | .exn =>
          { ret := false, filesLeft := created, testCalls := 0, clickCalls := 1, forwarded := some args }
        | .ok _ =>
          let files := created.erase file_path
          match opts.perform_test with
          | none =>
            { ret := success, filesLeft := files, testCalls := 0, clickCalls := 1, forwarded := some args }
          | some _ =>
            match env.performTest with
            | .exn =>
              { ret := false, filesLeft := files, testCalls := 1, clickCalls := 1, forwarded := some args }
            | .ok b =>
              { ret := b, filesLeft := files, testCalls := 1, clickCalls := 1, forwarded := some args }

/-- Behaviour of the collaborator calls made by one
`click_inside_this_element` invocation. -/
structure InsideEnv where
  /-- `get_element(driver, selector_outer)`. -/
  getOuter : Res Unit
  /-- `get_element(driver, selector_inner)`. -/
  getInner : Res Unit
  /-- Whether `selector_inner` is a `WebElement` instance rather than a
  `(By, locator)` tuple.  `outer_element.find_element(*selector_inner)`
  unpacks the selector, and unpacking a `WebElement` raises `TypeError`. -/
  innerIsWebElement : Bool
  /-- `outer_element.find_element(*selector_inner)` for a tuple selector.
  Selenium either returns an element or raises `NoSuchElementException`, so
  `ok` means found; the `is None` branch at click.py line 217 never fires. -/
  findInner : Res Unit
  /-- Collaborators of `save_element(outer_element, 'element_1')`. -/
  save1 : SaveEnv
  /-- `locate_image(outer_element_file_path)`. -/
  locateImage : Res Region
  /-- Collaborators of `save_element(inner_element, 'element_2')`. -/
  save2 : SaveEnv
  /-- `click_image(...)` with the outer region. -/
  clickImage : Res Bool
  /-- `os.remove(outer_element_file_path)`. -/
  removeOuter : Res Unit
  /-- `os.remove(inner_element_file_path)`. -/
  removeInner : Res Unit
  /-- `perform_test(driver, inner_element, **test_kwargs)`. -/
  performTest : Res Bool
  deriving DecidableEq, Repr

/-- `click_inside_this_element` (click.py lines 196-248).  The `try` body
resolves both elements, checks the inner element sits inside the outer one
(unpacking `selector_inner`, which raises for a `WebElement`), saves the
outer screenshot, locates it on screen, saves the inner screenshot, calls
`click_image` on the inner template with the outer location as `region`,
removes both files, and returns the success flag or the predicate value; any
exception becomes `False`. -/
def click_inside_this_element (env : InsideEnv) (opts : ClickOptions) : Outcome :=
  match env.getOuter with
  | .exn => { ret := false, filesLeft := [], testCalls := 0, clickCalls := 0, forwarded := none }
  | .ok _ =>
    match env.getInner with
    | .exn => { ret := false, filesLeft := [], testCalls := 0, clickCalls := 0, forwarded := none }
    | .ok _ =>
      match (if env.innerIsWebElement then Res.exn else env.findInner) with
      | .exn => { ret := false, filesLeft := [], testCalls := 0, clickCalls := 0, forwarded := none }
      | .ok _ =>
        match save_element env.save1 (some "element_1") with
        | (.exn, c1) =>
          { ret := false, filesLeft := c1, testCalls := 0, clickCalls := 0, forwarded := none }
        | (.ok outer_path, c1) =>
          match env.locateImage with
          | .exn =>
            { ret := false, filesLeft := c1, testCalls := 0, clickCalls := 0, forwarded := none }
          | .ok outer_location =>
            match save_element env.save2 (some "element_2") with
            | (.exn, c2) =>
              { ret := false, filesLeft := c1 ++ c2, testCalls := 0, clickCalls := 0, forwarded := none }
            | (.ok inner_path, c2) =>
              let args := imageArgsOf opts (some outer_location)
              match env.clickImage with
              | .exn =>
                { ret := false, filesLeft := c1 ++ c2, testCalls := 0, clickCalls := 1, forwarded := some args }
              | .ok success =>
                match env.removeOuter with
                | .exn =>
                  { ret := false, filesLeft := c1 ++ c2, testCalls := 0, clickCalls := 1, forwarded := some args }
                | .ok _ =>
                  match env.removeInner with
                  | .exn =>
                    { ret := false, filesLeft := c1.erase outer_path ++ c2, testCalls := 0, clickCalls := 1, forwarded := some args }
                  | .ok _ =>
                    let files := c1.erase outer_path ++ c2.erase inner_path
                    match opts.perform_test with
                    | none =>
                      { ret := success, filesLeft := files, testCalls := 0, clickCalls := 1, forwarded := some args }
                    | some _ =>
                      match env.performTest with
                      | .exn =>
                        { ret := false, filesLeft := files, testCalls := 1, clickCalls := 1, forwarded := some args }
                      | .ok b =>
                        { ret := b, filesLeft := files, testCalls := 1, clickCalls := 1, forwarded := some args }

/-- Modelled from the spec: the locate-retry loop of `click_image`
(`webdriver_click_functions/mouse.py`, absent from src/).  Spec section 4.4:
per attempt, the locator is asked for the template; if it is not found and
attempts remain the loop re-enters, else the operation fails; the attempt
count is bounded by `retries + 1`.  `found i` says whether the template is
found on attempt number `i`; the result is the success flag paired with the
number of locate attempts performed, with `fuel` attempts allowed starting
from attempt index `start`. -/
def locateAttemptLoop (found : Nat → Bool) (start : Nat) : Nat → Bool × Nat
  | 0 => (false, 0)
  | fuel + 1 =>
    if found start then (true, 1)
    else
      let rest := locateAttemptLoop found (start + 1) fuel
      (rest.1, rest.2 + 1)

/-- Modelled from the spec: `click_image`'s locate behaviour with a retry
budget of `retries` additional attempts after the first (spec section 6
option table), so `retries + 1` attempts in total. -/
def click_image_attempts (found : Nat → Bool) (retries : Nat) : Bool × Nat :=
  locateAttemptLoop found 0 (retries + 1)

/-- A screen point, as a pair of rational coordinates (Python floats are
modelled as rationals). -/
abbrev Point := Rat × Rat

/-- Modelled from the spec: the `linear` easing function
(`webdriver_click_functions/easing.py`, absent from src/).  Spec section 4.1:
every easing function is a pure map of normalized time with f(0)=0 and
f(1)=1; linear easing reshapes nothing. -/
def linear (t : Rat) : Rat := t

/-- Modelled from the spec: the easing registry `EASING_FUNCTIONS`
(`webdriver_click_functions/easing.py`, absent from src/).  Spec section 4.1:
a registry exposing every supported easing function by name, providing at
minimum `linear`. -/
def EASING_FUNCTIONS : List (String × (Rat → Rat)) := [("linear", linear)]

/-- Evaluation of a cubic Bezier curve with control points `p0 p1 p2 p3` at
parameter `t`, componentwise. -/
def cubicBezierPoint (p0 p1 p2 p3 : Point) (t : Rat) : Point :=
  ((1 - t) ^ 3 * p0.1 + 3 * (1 - t) ^ 2 * t * p1.1 + 3 * (1 - t) * t ^ 2 * p2.1 + t ^ 3 * p3.1,
   (1 - t) ^ 3 * p0.2 + 3 * (1 - t) ^ 2 * t * p1.2 + 3 * (1 - t) * t ^ 2 * p2.2 + t ^ 3 * p3.2)

/-- Modelled from the spec: `generate_cubic_bezier_curve`
(`webdriver_click_functions/mouse.py`, absent from src/; called in
`tests/test_draw.py` as
`generate_cubic_bezier_curve(start, control1, control2, target, steps, easing_func)`).
Spec section 4.2: partition [0,1] into `steps` uniform samples, remap each
through the easing function, evaluate the cubic Bezier at the remapped
parameter. -/
def generate_cubic_bezier_curve (p0 p1 p2 p3 : Point) (steps : Nat)
    (easing_func : Rat → Rat) : List Point :=
  (List.range steps).map fun (i : Nat) =>
    cubicBezierPoint p0 p1 p2 p3 (easing_func ((i : Rat) / ((steps : Rat) - 1)))

/-- A `save_element` run in which the named screenshot succeeds at once. -/
def saveOkEnv : SaveEnv :=
  { screenshotOk := .ok true, tempName := "tmpfile.png", tempShotOk := .ok true, tempSaved := true }

/-- A `save_element` run in which every screenshot call raises. -/
def saveExnEnv : SaveEnv :=
  { screenshotOk := .exn, tempName := "tmpfile.png", tempShotOk := .exn, tempSaved := false }

/-- A `click_this_element` run in which every collaborator call raises. -/
def envAllExn : ClickEnv :=
  { getElement := .exn, save1 := saveExnEnv, clickImage := .exn, remove1 := .exn, performTest := .exn }

/-- A `click_inside_this_element` run in which every collaborator call
raises. -/
def envInsideAllExn : InsideEnv :=
  { getOuter := .exn, getInner := .exn, innerIsWebElement := true, findInner := .exn
  , save1 := saveExnEnv, locateImage := .exn, save2 := saveExnEnv, clickImage := .exn
  , removeOuter := .exn, removeInner := .exn, performTest := .exn }

/-- A fully successful `click_this_element` run. -/
def envAllOk : ClickEnv :=
  { getElement := .ok (), save1 := saveOkEnv, clickImage := .ok true, remove1 := .ok ()
  , performTest := .ok true }

/-- A run in which the element is found and saved but `click_image` raises. -/
def envClickRaises : ClickEnv :=
  { getElement := .ok (), save1 := saveOkEnv, clickImage := .exn, remove1 := .ok ()
  , performTest := .ok true }

/-- A run in which the click action succeeds but the confirmation predicate
returns `False`. -/
def envConfirmFalse : ClickEnv :=
  { getElement := .ok (), save1 := saveOkEnv, clickImage := .ok true, remove1 := .ok ()
  , performTest := .ok false }

/-- A run in which the click action reports failure but the confirmation
predicate returns `True`. -/
def envClickFailConfirmTrue : ClickEnv :=
  { getElement := .ok (), save1 := saveOkEnv, clickImage := .ok false, remove1 := .ok ()
  , performTest := .ok true }

/-- A fully successful `click_inside_this_element` run. -/
def envInsideAllOk : InsideEnv :=
  { getOuter := .ok (), getInner := .ok (), innerIsWebElement := false, findInner := .ok ()
  , save1 := saveOkEnv, locateImage := .ok (10, 20, 30, 40), save2 := saveOkEnv
  , clickImage := .ok true, removeOuter := .ok (), removeInner := .ok ()
  , performTest := .ok true }

/-- A `click_inside_this_element` run whose inner selector is a `WebElement`
instance; both elements resolve and are displayed. -/
def envInsideWebElementInner : InsideEnv :=
  { getOuter := .ok (), getInner := .ok (), innerIsWebElement := true, findInner := .ok ()
  , save1 := saveOkEnv, locateImage := .ok (10, 20, 30, 40), save2 := saveOkEnv
  , clickImage := .ok true, removeOuter := .ok (), removeInner := .ok ()
  , performTest := .ok true }

/-- If `save_element` returns a path normally, the only file it created is
the returned one. -/
theorem save_element_ok_created (e : SaveEnv) (n p : String) (c : List String)
    (h : save_element e (some n) = (.ok p, c)) : c = [p] := by
  unfold save_element saveTempBranch at h
  (repeat' split at h) <;> (try simp_all) <;> aesop

/-- C1: for every driver, selector and options bundle, the public operations
`click_this_element` and `click_inside_this_element` never raise (their
bodies are total functions into an `Outcome` whose `ret` is a boolean), and
a failure raised by any lower-level call on the executed path — element
resolution, screenshot saving, locating, clicking, removal, or the
confirmation predicate — makes the operation return `False`. -/
theorem c1_failures_folded_to_false (env : ClickEnv) (envI : InsideEnv) (opts : ClickOptions) :
    (env.getElement = .exn → (click_this_element env opts).ret = false) ∧
    ((save_element env.save1 (some "element_1")).1 = .exn → (click_this_element env opts).ret = false) ∧
    (env.clickImage = .exn → (click_this_element env opts).ret = false) ∧
    (env.remove1 = .exn → (click_this_element env opts).ret = false) ∧
    (opts.perform_test.isSome → env.performTest = .exn → (click_this_element env opts).ret = false) ∧
    (envI.getOuter = .exn → (click_inside_this_element envI opts).ret = false) ∧
    (envI.getInner = .exn → (click_inside_this_element envI opts).ret = false) ∧
    (envI.findInner = .exn → (click_inside_this_element envI opts).ret = false) ∧
    ((save_element envI.save1 (some "element_1")).1 = .exn → (click_inside_this_element envI opts).ret = false) ∧
    (envI.locateImage = .exn → (click_inside_this_element envI opts).ret = false) ∧
    ((save_element envI.save2 (some "element_2")).1 = .exn → (click_inside_this_element envI opts).ret = false) ∧
    (envI.clickImage = .exn → (click_inside_this_element envI opts).ret = false) ∧
    (envI.removeOuter = .exn → (click_inside_this_element envI opts).ret = false) ∧
    (envI.removeInner = .exn → (click_inside_this_element envI opts).ret = false) ∧
    (opts.perform_test.isSome → envI.performTest = .exn → (click_inside_this_element envI opts).ret = false) := by
  unfold click_this_element click_inside_this_element
  refine ⟨?_, ?_, ?_, ?_, ?_, ?_, ?_, ?_, ?_, ?_, ?_, ?_, ?_, ?_, ?_⟩ <;>
    (try intro hq) <;> (try intro hq2) <;> (repeat' split) <;> first | rfl | simp_all

/-- Witness for C1: with every collaborator raising, both operations return
`False` rather than propagating the exception. -/
theorem c1_failures_folded_to_false_witness :
    (click_this_element envAllExn click_this_element_defaults).ret = false ∧
    (click_inside_this_element envInsideAllExn click_inside_this_element_defaults).ret = false := by
  have h := c1_failures_folded_to_false envAllExn envInsideAllExn click_this_element_defaults
  exact ⟨h.1 rfl, h.2.2.2.2.2.1 rfl⟩

/-- C2 counterexample: in a run of `click_this_element` where the element is
resolved and its screenshot `element_1.png` is saved but `click_image`
raises, the operation returns `False` with the screenshot file still on
disk — `os.remove` (click.py line 183) is only reached when `click_image`
returns normally, so the error exit path does not remove the artifact. -/
theorem c2_exception_exit_leaks_file :
    (click_this_element envClickRaises click_this_element_defaults).ret = false ∧
    (click_this_element envClickRaises click_this_element_defaults).filesLeft = ["element_1.png"] := by
  constructor <;> rfl

/-- C2 amended: the screenshot artifacts created by `save_element` are
removed before `click_this_element` and `click_inside_this_element` return
on every exit path on which the intermediate calls (`locate_image` and the
second `save_element` in the inside variant) together with `click_image` and
the `os.remove` calls return normally — success, failed click, failed
confirmation, and a raising confirmation predicate alike; on exception exits
between file creation and the corresponding `os.remove` line (for example
`click_image` raising, or `locate_image` or the second `save_element`
raising in `click_inside_this_element`) the artifacts created so far are
not removed. -/
theorem c2_cleanup_on_normal_exit_paths (env : ClickEnv) (envI : InsideEnv)
    (opts optsI : ClickOptions) (p q1 q2 : String) (c cI1 cI2 : List String)
    (r : Region) (s sI : Bool) :
    (save_element env.save1 (some "element_1") = (.ok p, c) →
      env.clickImage = .ok s → env.remove1 = .ok () →
      (click_this_element env opts).filesLeft = []) ∧
    (save_element envI.save1 (some "element_1") = (.ok q1, cI1) →
      envI.locateImage = .ok r →
      save_element envI.save2 (some "element_2") = (.ok q2, cI2) →
      envI.clickImage = .ok sI → envI.removeOuter = .ok () → envI.removeInner = .ok () →
      (click_inside_this_element envI optsI).filesLeft = []) := by
  constructor
  · intro hs hci hr
    have hc : c = [p] := save_element_ok_created env.save1 "element_1" p c hs
    subst hc
    unfold click_this_element
    (repeat' split) <;> first | rfl | simp_all [List.erase_cons_head]
  · intro hs1 hloc hs2 hci hro hri
    have hc1 : cI1 = [q1] := save_element_ok_created envI.save1 "element_1" q1 cI1 hs1
    have hc2 : cI2 = [q2] := save_element_ok_created envI.save2 "element_2" q2 cI2 hs2
    subst hc1
    subst hc2
    unfold click_inside_this_element
    (repeat' split) <;> first | rfl | simp_all [List.erase_cons_head]

/-- Witness for the amended C2: fully successful runs of both operations
leave no artifact behind. -/
theorem c2_cleanup_on_normal_exit_paths_witness :
    (click_this_element envAllOk click_this_element_defaults).filesLeft = [] ∧
    (click_inside_this_element envInsideAllOk click_inside_this_element_defaults).filesLeft = [] := by
  have h := c2_cleanup_on_normal_exit_paths envAllOk envInsideAllOk
    click_this_element_defaults click_inside_this_element_defaults
    "element_1.png" "element_1.png" "element_2.png"
    ["element_1.png"] ["element_1.png"] ["element_2.png"]
    (10, 20, 30, 40) true true
  exact ⟨h.1 rfl rfl rfl, h.2 rfl rfl rfl rfl rfl rfl⟩

/-- C3 counterexample: in a run of `click_this_element` with the default
options (retry budget 3, so attempts remain) in which the click action
succeeds but the confirmation predicate returns `False`, the operation
returns `False` after calling the predicate exactly once and the click
action exactly once: the locate-move-click-confirm cycle is not
re-entered on a failed confirmation. -/
theorem c3_no_retry_on_failed_confirmation :
    (click_this_element envConfirmFalse click_this_element_defaults).ret = false ∧
    (click_this_element envConfirmFalse click_this_element_defaults).testCalls = 1 ∧
    (click_this_element envConfirmFalse click_this_element_defaults).clickCalls = 1 := by
  refine ⟨rfl, rfl, rfl⟩

/-- C3 amended: in every run of `click_this_element` the confirmation
predicate is evaluated at most once and `click_image` is invoked at most
once; when the predicate returns `False` the operation returns `False`
immediately, without re-entering the locate-move-click-confirm cycle — the
retry budget is consumed only inside `click_image`'s own locate loop. -/
theorem c3_confirmation_evaluated_at_most_once (env : ClickEnv) (opts : ClickOptions) :
    (click_this_element env opts).testCalls ≤ 1 ∧
    (click_this_element env opts).clickCalls ≤ 1 ∧
    (opts.perform_test.isSome → env.performTest = .ok false →
      (click_this_element env opts).ret = false) := by
  unfold click_this_element
  refine ⟨?_, ?_, ?_⟩ <;> (try intro hq hq2) <;> (repeat' split) <;>
    first | rfl | simp_all

/-- Witness for the amended C3: in the run where the predicate returns
`False` with budget remaining, it was called once and the result is
`False`. -/
theorem c3_confirmation_evaluated_at_most_once_witness :
    (click_this_element envConfirmFalse click_this_element_defaults).testCalls ≤ 1 ∧
    (click_this_element envConfirmFalse click_this_element_defaults).ret = false := by
  have h := c3_confirmation_evaluated_at_most_once envConfirmFalse click_this_element_defaults
  exact ⟨h.1, h.2.2 rfl rfl⟩

/-- C4: when a confirmation predicate is supplied and a click sequence runs
to completion, the boolean returned by `click_this_element` is exactly the
predicate's value `b`, whatever the click action's success flag `s` was: a
predicate returning `True` makes the operation return `True` even where the
default marker verification would have failed, and a predicate returning
`False` makes it return `False` even though the click action succeeded. -/
theorem c4_supplied_predicate_decides_result (env : ClickEnv) (opts : ClickOptions)
    (p : String) (c : List String) (cr : ConfirmRef) (s b : Bool)
    (hg : env.getElement = .ok ())
    (hs : save_element env.save1 (some "element_1") = (.ok p, c))
    (hci : env.clickImage = .ok s)
    (hr : env.remove1 = .ok ())
    (hpt : opts.perform_test = some cr)
    (hb : env.performTest = .ok b) :
    (click_this_element env opts).ret = b := by
  unfold click_this_element
  (repeat' split) <;> first | rfl | simp_all

/-- Witness for C4: with a failed click but a true predicate the operation
returns `True`; with a successful click but a false predicate it returns
`False`. -/
theorem c4_supplied_predicate_decides_result_witness :
    (click_this_element envClickFailConfirmTrue click_this_element_defaults).ret = true ∧
    (click_this_element envConfirmFalse click_this_element_defaults).ret = false := by
  constructor
  · exact c4_supplied_predicate_decides_result envClickFailConfirmTrue
      click_this_element_defaults "element_1.png" ["element_1.png"] .clickedDefault
      false true rfl rfl rfl rfl rfl rfl
  · exact c4_supplied_predicate_decides_result envConfirmFalse
      click_this_element_defaults "element_1.png" ["element_1.png"] .clickedDefault
      true false rfl rfl rfl rfl rfl rfl

/-- The locate loop performs at most `fuel` attempts. -/
theorem locateAttemptLoop_le (f : Nat → Bool) :
    ∀ (fuel start : Nat), (locateAttemptLoop f start fuel).2 ≤ fuel
  | 0, _ => by simp [locateAttemptLoop]
  | fuel + 1, start => by
    unfold locateAttemptLoop
    split
    · simp
    · simpa using locateAttemptLoop_le f fuel (start + 1)

/-- C5: against a template that never matches, `click_image` with
`retries = 3` performs exactly 4 locate attempts (the initial attempt plus 3
retries) and reports failure; in general the attempt count is bounded by
`retries + 1`. -/
theorem c5_retry_exhaustion_attempt_count :
    click_image_attempts (fun _ => false) 3 = (false, 4) ∧
    ∀ (found : Nat → Bool) (retries : Nat),
      (click_image_attempts found retries).2 ≤ retries + 1 := by
  constructor
  · rfl
  · intro found retries
    exact locateAttemptLoop_le found (retries + 1) 0

/-- The collaborator behaviour a `click_inside_this_element` run induces for
the shared part of `click_this_element`'s control flow: resolving one
element, saving it, clicking, removing the file, confirming. -/
def toClickEnv (e : InsideEnv) : ClickEnv :=
  { getElement := e.getOuter
  , save1 := e.save1
  , clickImage := e.clickImage
  , remove1 := e.removeOuter
  , performTest := e.performTest }

/-- C6: `click_inside_this_element` first locates the outer element's
captured raster on screen and passes that location as the `region` argument
of the `click_image` call for the inner element (whereas
`click_this_element` passes no region), and — apart from the added
containment check, second screenshot and region constraint — it follows the
same state machine: whenever its inner-element-specific steps succeed, its
returned boolean equals that of `click_this_element` run against the
corresponding collaborator behaviour. -/
theorem c6_outer_region_constrains_inner_click (envI : InsideEnv) (opts : ClickOptions) :
    (∀ a, (click_inside_this_element envI opts).forwarded = some a →
      ∃ r, envI.locateImage = .ok r ∧ a = imageArgsOf opts (some r)) ∧
    (∀ (env : ClickEnv) a, (click_this_element env opts).forwarded = some a →
      a = imageArgsOf opts none) ∧
    (∀ (r : Region) (q : String) (c2 : List String),
      envI.getInner = .ok () → envI.innerIsWebElement = false → envI.findInner = .ok () →
      envI.locateImage = .ok r →
      save_element envI.save2 (some "element_2") = (.ok q, c2) →
      envI.removeInner = .ok () →
      (click_inside_this_element envI opts).ret = (click_this_element (toClickEnv envI) opts).ret) := by
  refine ⟨?_, ?_, ?_⟩
  · intro a ha
    unfold click_inside_this_element at ha
    (repeat' split at ha) <;> simp_all
  · intro env a ha
    unfold click_this_element at ha
    (repeat' split at ha) <;> simp_all
  · intro r q c2 hgi hw hfi hloc hs2 hri
    unfold click_inside_this_element click_this_element toClickEnv
    (repeat' split) <;> first | rfl | simp_all

/-- Witness for C6: in a fully successful run the forwarded region is the
located outer region, and the returned boolean agrees with the plain
`click_this_element` run over the shared collaborators. -/
theorem c6_outer_region_constrains_inner_click_witness :
    (∃ r, envInsideAllOk.locateImage = Res.ok r ∧
        imageArgsOf click_inside_this_element_defaults (some (10, 20, 30, 40)) =
          imageArgsOf click_inside_this_element_defaults (some r)) ∧
    (click_inside_this_element envInsideAllOk click_inside_this_element_defaults).ret =
      (click_this_element (toClickEnv envInsideAllOk) click_inside_this_element_defaults).ret := by
  have h := c6_outer_region_constrains_inner_click envInsideAllOk click_inside_this_element_defaults
  exact ⟨h.1 _ rfl,
    h.2.2 (10, 20, 30, 40) "element_2.png" ["element_2.png"] rfl rfl rfl rfl rfl rfl⟩

/-- A cubic Bezier curve starts at its first control point. -/
theorem cubicBezierPoint_at_zero (p0 p1 p2 p3 : Point) :
    cubicBezierPoint p0 p1 p2 p3 0 = p0 := by
  obtain ⟨x, y⟩ := p0
  unfold cubicBezierPoint
  simp only [Prod.mk.injEq]
  constructor <;> ring

/-- A cubic Bezier curve ends at its last control point. -/
theorem cubicBezierPoint_at_one (p0 p1 p2 p3 : Point) :
    cubicBezierPoint p0 p1 p2 p3 1 = p3 := by
  obtain ⟨x, y⟩ := p3
  unfold cubicBezierPoint
  simp only [Prod.mk.injEq]
  constructor <;> ring

/-- C7: every easing function in the registry fixes 0 and 1, and for every
easing function with that property, every start, control and end point, and
every step count between 2 and 1000, the generated path has exactly `steps`
points, its first point is exactly the start point and its last point is
exactly the end point (so in particular within sub-pixel epsilon). -/
theorem c7_generated_path_endpoints :
    (∀ nf ∈ EASING_FUNCTIONS, nf.2 0 = 0 ∧ nf.2 1 = 1) ∧
    ∀ (f : Rat → Rat) (p0 p1 p2 p3 : Point) (steps : Nat),
      f 0 = 0 → f 1 = 1 → 2 ≤ steps → steps ≤ 1000 →
      (generate_cubic_bezier_curve p0 p1 p2 p3 steps f).length = steps ∧
      (generate_cubic_bezier_curve p0 p1 p2 p3 steps f).head? = some p0 ∧
      (generate_cubic_bezier_curve p0 p1 p2 p3 steps f).getLast? = some p3 := by
  constructor
  · intro nf hnf
    simp only [EASING_FUNCTIONS, List.mem_singleton] at hnf
    subst hnf
    exact ⟨rfl, rfl⟩
  · intro f p0 p1 p2 p3 steps hf0 hf1 h2 _
    have hlen : (generate_cubic_bezier_curve p0 p1 p2 p3 steps f).length = steps := by
      simp [generate_cubic_bezier_curve]
    refine ⟨hlen, ?_, ?_⟩
    · unfold generate_cubic_bezier_curve
      rw [List.head?_map]
      have hh : (List.range steps).head? = some 0 := by
        cases steps with
        | zero => omega
        | succ m => simp [List.range_succ_eq_map]
      rw [hh]
      simp [hf0, cubicBezierPoint_at_zero]
    · unfold generate_cubic_bezier_curve
      rw [List.getLast?_eq_getElem?]
      simp only [List.length_map, List.length_range]
      rw [List.getElem?_map]
      have hr : (List.range steps)[steps - 1]? = some (steps - 1) :=
        List.getElem?_range (by omega)
      rw [hr]
      have hne : (steps : Rat) - 1 ≠ 0 := by
        have h2q : (2 : Rat) ≤ (steps : Rat) := by exact_mod_cast h2
        intro hzero
        rw [sub_eq_zero] at hzero
        rw [hzero] at h2q
        linarith
      have ht : ((steps - 1 : Nat) : Rat) / ((steps : Rat) - 1) = 1 := by
        rw [Nat.cast_sub (by omega : 1 ≤ steps)]
        push_cast
        exact div_self hne
      rw [Option.map_some', ht, hf1, cubicBezierPoint_at_one]

/-- Witness for C7: the linear easing is in the registry, fixes 0 and 1,
and with 2 steps the generated path runs from the start point to the end
point. -/
theorem c7_generated_path_endpoints_witness :
    (linear 0 = 0 ∧ linear 1 = 1) ∧
    (generate_cubic_bezier_curve ((0 : Rat), (0 : Rat)) (1, 2) (3, 4) (5, 6) 2 linear).length = 2 ∧
    (generate_cubic_bezier_curve ((0 : Rat), (0 : Rat)) (1, 2) (3, 4) (5, 6) 2 linear).head? = some (0, 0) ∧
    (generate_cubic_bezier_curve ((0 : Rat), (0 : Rat)) (1, 2) (3, 4) (5, 6) 2 linear).getLast? = some (5, 6) := by
  have h := c7_generated_path_endpoints
  exact ⟨h.1 ("linear", linear) (by simp [EASING_FUNCTIONS]),
    h.2 linear (0, 0) (1, 2) (3, 4) (5, 6) 2 rfl rfl (by omega) (by omega)⟩

/-- C8: both public operations default to confidence 0.8 (= 4/5), 3 retries,
x and y reductions of 0.2 (= 1/5), a duration range of (1, 3) seconds, a
steps range of (150, 300), the default marker-check confirmation predicate
`Clicked.default`, and the `linear` easing function; and every option the
underlying click action consumes — confidence, retries, reductions,
duration range, steps range, easing function — is forwarded to `click_image`
unchanged by both operations. -/
theorem c8_option_defaults_and_forwarding :
    click_this_element_defaults =
      { confidence := 4 / 5, retries := 3, x_reduction := 1 / 5, y_reduction := 1 / 5
      , duration_range := (1, 3), steps_range := (150, 300)
      , perform_test := some .clickedDefault, easing_func := .linearFn } ∧
    click_inside_this_element_defaults = click_this_element_defaults ∧
    (∀ (env : ClickEnv) (opts : ClickOptions) (a : ImageClickArgs),
      (click_this_element env opts).forwarded = some a →
      (a.confidence, a.retries, a.x_reduction, a.y_reduction,
        a.duration_range, a.steps_range, a.easing_func) =
      (opts.confidence, opts.retries, opts.x_reduction, opts.y_reduction,
        opts.duration_range, opts.steps_range, opts.easing_func)) ∧
    (∀ (envI : InsideEnv) (opts : ClickOptions) (a : ImageClickArgs),
      (click_inside_this_element envI opts).forwarded = some a →
      (a.confidence, a.retries, a.x_reduction, a.y_reduction,
        a.duration_range, a.steps_range, a.easing_func) =
      (opts.confidence, opts.retries, opts.x_reduction, opts.y_reduction,
        opts.duration_range, opts.steps_range, opts.easing_func)) := by
  refine ⟨?_, by rfl, ?_, ?_⟩
  · simp only [click_this_element_defaults, ClickOptions.mk.injEq, Prod.mk.injEq]
    norm_num
  · intro env opts a ha
    unfold click_this_element at ha
    (repeat' split at ha) <;> (try injection ha with ha) <;> (try subst ha) <;>
      first | rfl | simp_all
  · intro envI opts a ha
    unfold click_inside_this_element at ha
    (repeat' split at ha) <;> (try injection ha with ha) <;> (try subst ha) <;>
      first | rfl | simp_all

/-- Witness for C8: the bundle forwarded in a successful default-options run
of `click_this_element` carries exactly the default option values. -/
theorem c8_option_defaults_and_forwarding_witness :
    ((imageArgsOf click_this_element_defaults none).confidence,
     (imageArgsOf click_this_element_defaults none).retries,
     (imageArgsOf click_this_element_defaults none).x_reduction,
     (imageArgsOf click_this_element_defaults none).y_reduction,
     (imageArgsOf click_this_element_defaults none).duration_range,
     (imageArgsOf click_this_element_defaults none).steps_range,
     (imageArgsOf click_this_element_defaults none).easing_func) =
      (click_this_element_defaults.confidence, click_this_element_defaults.retries,
       click_this_element_defaults.x_reduction, click_this_element_defaults.y_reduction,
       click_this_element_defaults.duration_range, click_this_element_defaults.steps_range,
       click_this_element_defaults.easing_func) :=
  c8_option_defaults_and_forwarding.2.2.1 envAllOk click_this_element_defaults _ rfl

/-- C9: with a confirmation predicate supplied, the boolean both operations
return is independent of the click action's success flag — two runs
identical except for that flag return the same result — and on a completed
sequence it equals exactly the predicate's value; with `perform_test=None`,
the returned boolean equals exactly the click action's success flag. -/
theorem c9_result_ignores_click_flag_with_predicate :
    (∀ (env : ClickEnv) (opts : ClickOptions) (s1 s2 : Bool) (cr : ConfirmRef),
      opts.perform_test = some cr →
      (click_this_element { env with clickImage := .ok s1 } opts).ret =
        (click_this_element { env with clickImage := .ok s2 } opts).ret) ∧
    (∀ (envI : InsideEnv) (opts : ClickOptions) (s1 s2 : Bool) (cr : ConfirmRef),
      opts.perform_test = some cr →
      (click_inside_this_element { envI with clickImage := .ok s1 } opts).ret =
        (click_inside_this_element { envI with clickImage := .ok s2 } opts).ret) ∧
    (∀ (env : ClickEnv) (opts : ClickOptions) (p : String) (c : List String)
        (b s : Bool) (cr : ConfirmRef),
      opts.perform_test = some cr → env.getElement = .ok () →
      save_element env.save1 (some "element_1") = (.ok p, c) →
      env.clickImage = .ok s → env.remove1 = .ok () → env.performTest = .ok b →
      (click_this_element env opts).ret = b) ∧
    (∀ (env : ClickEnv) (opts : ClickOptions) (p : String) (c : List String) (s : Bool),
      opts.perform_test = none → env.getElement = .ok () →
      save_element env.save1 (some "element_1") = (.ok p, c) →
      env.clickImage = .ok s → env.remove1 = .ok () →
      (click_this_element env opts).ret = s) ∧
    (∀ (envI : InsideEnv) (opts : ClickOptions) (q1 q2 : String) (cI1 cI2 : List String)
        (r : Region) (b sI : Bool) (cr : ConfirmRef),
      opts.perform_test = some cr → envI.getOuter = .ok () → envI.getInner = .ok () →
      envI.innerIsWebElement = false → envI.findInner = .ok () →
      save_element envI.save1 (some "element_1") = (.ok q1, cI1) →
      envI.locateImage = .ok r →
      save_element envI.save2 (some "element_2") = (.ok q2, cI2) →
      envI.clickImage = .ok sI → envI.removeOuter = .ok () → envI.removeInner = .ok () →
      envI.performTest = .ok b →
      (click_inside_this_element envI opts).ret = b) ∧
    (∀ (envI : InsideEnv) (opts : ClickOptions) (q1 q2 : String) (cI1 cI2 : List String)
        (r : Region) (sI : Bool),
      opts.perform_test = none → envI.getOuter = .ok () → envI.getInner = .ok () →
      envI.innerIsWebElement = false → envI.findInner = .ok () →
      save_element envI.save1 (some "element_1") = (.ok q1, cI1) →
      envI.locateImage = .ok r →
      save_element envI.save2 (some "element_2") = (.ok q2, cI2) →
      envI.clickImage = .ok sI → envI.removeOuter = .ok () → envI.removeInner = .ok () →
      (click_inside_this_element envI opts).ret = sI) := by
  refine ⟨?_, ?_, ?_, ?_, ?_, ?_⟩
  · intro env opts s1 s2 cr hpt
    obtain ⟨g, sv, ci, r1, pt⟩ := env
    unfold click_this_element
    (repeat' split) <;> first | rfl | simp_all
  · intro envI opts s1 s2 cr hpt
    obtain ⟨go, gi, iw, fi, s1e, li, s2e, cie, ro, ri, pte⟩ := envI
    unfold click_inside_this_element
    (repeat' split) <;> first | rfl | simp_all
  · intro env opts p c b s cr hpt hg hs hci hr hb
    unfold click_this_element
    (repeat' split) <;> first | rfl | simp_all
  · intro env opts p c s hpt hg hs hci hr
    unfold click_this_element
    (repeat' split) <;> first | rfl | simp_all
  · intro envI opts q1 q2 cI1 cI2 r b sI cr hpt hgo hgi hw hfi hs1 hloc hs2 hci hro hri hb
    unfold click_inside_this_element
    (repeat' split) <;> first | rfl | simp_all
  · intro envI opts q1 q2 cI1 cI2 r sI hpt hgo hgi hw hfi hs1 hloc hs2 hci hro hri
    unfold click_inside_this_element
    (repeat' split) <;> first | rfl | simp_all

/-- Witness for C9: flipping the click-success flag between two otherwise
identical default-option runs leaves the result unchanged for both
operations; completed default-option runs of both operations return the
predicate's value; and runs with `perform_test=None` return the click
flag. -/
theorem c9_result_ignores_click_flag_with_predicate_witness :
    (click_this_element { envAllOk with clickImage := .ok true } click_this_element_defaults).ret =
      (click_this_element { envAllOk with clickImage := .ok false } click_this_element_defaults).ret ∧
    (click_inside_this_element { envInsideAllOk with clickImage := .ok true }
        click_inside_this_element_defaults).ret =
      (click_inside_this_element { envInsideAllOk with clickImage := .ok false }
        click_inside_this_element_defaults).ret ∧
    (click_this_element { envAllOk with clickImage := .ok false }
      { click_this_element_defaults with perform_test := none }).ret = false ∧
    (click_inside_this_element envInsideAllOk click_inside_this_element_defaults).ret = true ∧
    (click_inside_this_element { envInsideAllOk with clickImage := .ok false }
      { click_inside_this_element_defaults with perform_test := none }).ret = false := by
  have h := c9_result_ignores_click_flag_with_predicate
  refine ⟨h.1 envAllOk click_this_element_defaults true false .clickedDefault rfl,
    h.2.1 envInsideAllOk click_inside_this_element_defaults true false .clickedDefault rfl,
    h.2.2.2.1 { envAllOk with clickImage := .ok false }
      { click_this_element_defaults with perform_test := none }
      "element_1.png" ["element_1.png"] false rfl rfl rfl rfl rfl,
    h.2.2.2.2.1 envInsideAllOk click_inside_this_element_defaults
      "element_1.png" "element_2.png" ["element_1.png"] ["element_2.png"]
      (10, 20, 30, 40) true true .clickedDefault
      rfl rfl rfl rfl rfl rfl rfl rfl rfl rfl rfl rfl,
    h.2.2.2.2.2 { envInsideAllOk with clickImage := .ok false }
      { click_inside_this_element_defaults with perform_test := none }
      "element_1.png" "element_2.png" ["element_1.png"] ["element_2.png"]
      (10, 20, 30, 40) false
      rfl rfl rfl rfl rfl rfl rfl rfl rfl rfl rfl⟩

/-- C10: when `selector_inner` is a `WebElement` instance, even with both
elements resolved and displayed, `click_inside_this_element` returns `False`
without ever invoking the click action: line 217 unpacks `selector_inner`
with `*`, which raises `TypeError` for a `WebElement`, and the blanket
`except Exception` handler turns that into `False`. -/
theorem c10_webelement_inner_selector_fails (envI : InsideEnv) (opts : ClickOptions)
    (hw : envI.innerIsWebElement = true)
    (ho : envI.getOuter = .ok ()) (hi : envI.getInner = .ok ()) :
    (click_inside_this_element envI opts).ret = false ∧
    (click_inside_this_element envI opts).clickCalls = 0 := by
  unfold click_inside_this_element
  constructor <;> ((repeat' split) <;> first | rfl | simp_all)

/-- Witness for C10: a run whose inner selector is a `WebElement`, with both
elements displayed and every other collaborator succeeding, returns `False`
and never clicks. -/
theorem c10_webelement_inner_selector_fails_witness :
    (click_inside_this_element envInsideWebElementInner click_inside_this_element_defaults).ret = false ∧
    (click_inside_this_element envInsideWebElementInner click_inside_this_element_defaults).clickCalls = 0 :=
  c10_webelement_inner_selector_fails envInsideWebElementInner
    click_inside_this_element_defaults rfl rfl rfl
